import Mathlib

/-!
Shallow embedding of `py_annotation_switch` (`src/annotation_switch/__init__.py`):
a context-manager implementation of a switch-case that intercepts Python
variable annotations as its declaration channel.

Python runtime values are modelled by `Val`, Python exceptions by `Err`,
annotation ASTs (the body of an `ast.Expression` parsed in eval mode) by
`Expr`, and Python dicts by association lists with overwrite-in-place
insertion.  Raising code is modelled by `Except`; global mutable state
(the `__annotations__` singleton) is passed explicitly.
-/

namespace AnnotationSwitch

/-- Model of the Python runtime values the library manipulates: integers,
strings, `None`, and tuples. -/
inductive Val where
  | int (n : Int)
  | str (s : String)
  | none
  | tuple (elems : List Val)

mutual

/-- Boolean equality on modelled values (Python `==` restricted to the value
forms of the model: ints, strings, `None`, tuples compared element-wise). -/
def valBeq : Val → Val → Bool
  | Val.int m, Val.int n => m == n
  | Val.str s, Val.str t => s == t
  | Val.none, Val.none => true
  | Val.tuple xs, Val.tuple ys => valListBeq xs ys
  | _, _ => false

/-- Element-wise boolean equality on lists of modelled values. -/
def valListBeq : List Val → List Val → Bool
  | [], [] => true
  | x :: xs, y :: ys => valBeq x y && valListBeq xs ys
  | _, _ => false

end

mutual

theorem valBeq_iff : ∀ a b : Val, valBeq a b = true ↔ a = b
  | Val.int m, Val.int n => by simp [valBeq]
  | Val.int _, Val.str _ => by simp [valBeq]
  | Val.int _, Val.none => by simp [valBeq]
  | Val.int _, Val.tuple _ => by simp [valBeq]
  | Val.str _, Val.int _ => by simp [valBeq]
  | Val.str s, Val.str t => by simp [valBeq]
  | Val.str _, Val.none => by simp [valBeq]
  | Val.str _, Val.tuple _ => by simp [valBeq]
  | Val.none, Val.int _ => by simp [valBeq]
  | Val.none, Val.str _ => by simp [valBeq]
  | Val.none, Val.none => by simp [valBeq]
  | Val.none, Val.tuple _ => by simp [valBeq]
  | Val.tuple _, Val.int _ => by simp [valBeq]
  | Val.tuple _, Val.str _ => by simp [valBeq]
  | Val.tuple _, Val.none => by simp [valBeq]
  | Val.tuple xs, Val.tuple ys => by
      simp [valBeq, valListBeq_iff xs ys]

theorem valListBeq_iff : ∀ xs ys : List Val, valListBeq xs ys = true ↔ xs = ys
  | [], [] => by simp [valListBeq]
  | [], _ :: _ => by simp [valListBeq]
  | _ :: _, [] => by simp [valListBeq]
  | x :: xs, y :: ys => by
      simp [valListBeq, valBeq_iff x y, valListBeq_iff xs ys]

end

instance : DecidableEq Val := fun a b => decidable_of_iff _ (valBeq_iff a b)

/-- Model of the Python exceptions raised by the library or by evaluated code:
`SwitchCaseNotValidError(value)`, `CaseIdentifierNotConstantError` (carrying
the 1-based position from the message `"... case identifier number: {ind + 1}"`),
the `Exception("Annotation has to be able to be evaluated as a tuple.")` from
`parse_annotation`, and the builtin `KeyError`, `NameError`, `IndexError`,
`TypeError`. -/
inductive Err where
  | switchCaseNotValid (value : Val)
  | caseIdentifierNotConstant (position : Nat)
  | annotationNotTuple
  | keyError (key : Val)
  | nameError (id : String)
  | indexError
  | typeError
deriving DecidableEq

/-- Model of the Python expression ASTs relevant to the source: `ast.Constant`,
`ast.Name`, `ast.Tuple`, and `raiseE e` standing for an arbitrary other
expression whose evaluation raises the exception `e` (for example a
`BinOp` over an undefined value, or `(\x7b\x7d)[0]` raising `KeyError`). -/
inductive Expr where
  | const (value : Val)
  | name (id : String)
  | tup (elts : List Expr)
  | raiseE (e : Err)

mutual

/-- Boolean equality on modelled expression ASTs. -/
def exprBeq : Expr → Expr → Bool
  | Expr.const v, Expr.const w => decide (v = w)
  | Expr.name i, Expr.name j => i == j
  | Expr.tup xs, Expr.tup ys => exprListBeq xs ys
  | Expr.raiseE d, Expr.raiseE e => decide (d = e)
  | _, _ => false

/-- Element-wise boolean equality on lists of modelled expression ASTs. -/
def exprListBeq : List Expr → List Expr → Bool
  | [], [] => true
  | x :: xs, y :: ys => exprBeq x y && exprListBeq xs ys
  | _, _ => false

end

mutual

theorem exprBeq_iff : ∀ a b : Expr, exprBeq a b = true ↔ a = b
  | Expr.const _, Expr.const _ => by simp [exprBeq]
  | Expr.const _, Expr.name _ => by simp [exprBeq]
  | Expr.const _, Expr.tup _ => by simp [exprBeq]
  | Expr.const _, Expr.raiseE _ => by simp [exprBeq]
  | Expr.name _, Expr.const _ => by simp [exprBeq]
  | Expr.name _, Expr.name _ => by simp [exprBeq]
  | Expr.name _, Expr.tup _ => by simp [exprBeq]
  | Expr.name _, Expr.raiseE _ => by simp [exprBeq]
  | Expr.tup _, Expr.const _ => by simp [exprBeq]
  | Expr.tup _, Expr.name _ => by simp [exprBeq]
  | Expr.tup xs, Expr.tup ys => by simp [exprBeq, exprListBeq_iff xs ys]
  | Expr.tup _, Expr.raiseE _ => by simp [exprBeq]
  | Expr.raiseE _, Expr.const _ => by simp [exprBeq]
  | Expr.raiseE _, Expr.name _ => by simp [exprBeq]
  | Expr.raiseE _, Expr.tup _ => by simp [exprBeq]
  | Expr.raiseE _, Expr.raiseE _ => by simp [exprBeq]

theorem exprListBeq_iff : ∀ xs ys : List Expr, exprListBeq xs ys = true ↔ xs = ys
  | [], [] => by simp [exprListBeq]
  | [], _ :: _ => by simp [exprListBeq]
  | _ :: _, [] => by simp [exprListBeq]
  | x :: xs, y :: ys => by
      simp [exprListBeq, exprBeq_iff x y, exprListBeq_iff xs ys]

end

instance : DecidableEq Expr := fun a b => decidable_of_iff _ (exprBeq_iff a b)

/-- Decidable equality on `Except`, used to evaluate closed propositions
about raising computations. -/
instance {ε α : Type} [DecidableEq ε] [DecidableEq α] : DecidableEq (Except ε α) :=
  fun x y =>
    match x, y with
    | Except.ok a, Except.ok b =>
        if h : a = b then isTrue (by rw [h])
        else isFalse (fun hc => h (Except.ok.inj hc))
    | Except.error d, Except.error e =>
        if h : d = e then isTrue (by rw [h])
        else isFalse (fun hc => h (Except.error.inj hc))
    | Except.ok _, Except.error _ => isFalse (fun hc => Except.noConfusion hc)
    | Except.error _, Except.ok _ => isFalse (fun hc => Except.noConfusion hc)

/-- Lookup in a Python dict modelled as an association list;
`Option.none` corresponds to a raised `KeyError`. -/
def dictGet {α β : Type} [DecidableEq α] : List (α × β) → α → Option β
  | [], _ => Option.none
  | (k, v) :: rest, key => if key = k then some v else dictGet rest key

/-- Assignment `d[key] = val` on a Python dict modelled as an association
list: overwrite in place if the key is present, else append (Python dicts
preserve insertion order). -/
def dictSet {α β : Type} [DecidableEq α] : List (α × β) → α → β → List (α × β)
  | [], key, val => [(key, val)]
  | (k, v) :: rest, key, val =>
      if key = k then (k, val) :: rest else (k, v) :: dictSet rest key val

/-- Variable scope used to evaluate case bodies (the `scope` dict). -/
abbrev Scope := List (String × Val)

mutual

/-- Evaluation of a modelled expression against a scope dict, mirroring
`eval(compile(c, filename="<unused>", mode="eval"), s)` in `resolve`:
constants evaluate to themselves, names are looked up in the scope
(raising `NameError` when absent), tuple displays evaluate their elements
left to right, and `raiseE e` raises `e`. -/
def evalExpr (scope : Scope) : Expr → Except Err Val
  | Expr.const v => Except.ok v
  | Expr.name id =>
      match dictGet scope id with
      | some v => Except.ok v
      | Option.none => Except.error (Err.nameError id)
  | Expr.tup elts =>
      match evalElts scope elts with
      | Except.ok vs => Except.ok (Val.tuple vs)
      | Except.error e => Except.error e
  | Expr.raiseE e => Except.error e

/-- Left-to-right evaluation of the elements of a tuple display; the first
raised exception propagates. -/
def evalElts (scope : Scope) : List Expr → Except Err (List Val)
  | [] => Except.ok []
  | e :: rest =>
      match evalExpr scope e with
      | Except.error err => Except.error err
      | Except.ok v =>
          match evalElts scope rest with
          | Except.error err => Except.error err
          | Except.ok vs => Except.ok (v :: vs)

end

/-- Source line 11: `_DEFAULT_KEYWORD = "case"`. -/
def _DEFAULT_KEYWORD : String := "case"

/-- Source line 21: `default = "default"`, the module-level marker value. -/
def default : Val := Val.str "default"

/-- Source lines 24-27: frozen dataclass `OutputWrapper`, holding the output
after the resolution of a Switch statement; its only field is `output`. -/
structure OutputWrapper where
  output : Val
deriving DecidableEq

/-- Result of `_Case.__init__` (source lines 107-131): the attributes
`identifiers` (a set of constant match keys), `code` (the whole parsed
annotation expression, or `None` when the annotation tuple is empty) and
`is_default_case`. -/
structure Case where
  identifiers : List Val
  code : Option Expr
  is_default_case : Bool
deriving DecidableEq

/-- Source lines 89-100, `parse_annotation`: the textual annotation is parsed
in eval mode (the text-to-AST step of the host, which the embedding takes as
an already-parsed `Expr`); the parse must yield a tuple-shaped expression or
`Exception("Annotation has to be able to be evaluated as a tuple.")` is
raised.  Returns the elements of the tuple; the whole expression is
`Expr.tup` of them. -/
def parse_annotation : Expr → Except Err (List Expr)
  | Expr.tup elts => Except.ok elts
  | _ => Except.error Err.annotationNotTuple

/-- Python `set.add` on the identifier set, modelled on a duplicate-free
list: insert if not already present. -/
def setInsert (xs : List Val) (v : Val) : List Val :=
  if v ∈ xs then xs else xs ++ [v]

/-- Loop body of `_Case.__init__` (source lines 116-128): walk the tuple
elements with their index; a non-last element must be a constant or the bare
name `default` (either form of `default` marks the default case, other
constants join the identifier set, anything else raises
`CaseIdentifierNotConstantError` carrying the 1-based position); at the last
index the whole expression is captured as `code`. -/
def caseLoop (whole : Expr) (total : Nat) : Nat → List Expr → Case → Except Err Case
  | _, [], acc => Except.ok acc
  | ind, elem :: rest, acc =>
      if ind ≠ total - 1 then
        match elem with
        | Expr.const v =>
            if v = Val.str "default" then
              caseLoop whole total (ind + 1) rest { acc with is_default_case := true }
            else
              caseLoop whole total (ind + 1) rest
                { acc with identifiers := setInsert acc.identifiers v }
        | Expr.name id =>
            if id = "default" then
              caseLoop whole total (ind + 1) rest { acc with is_default_case := true }
            else
              Except.error (Err.caseIdentifierNotConstant (ind + 1))
        | _ => Except.error (Err.caseIdentifierNotConstant (ind + 1))
      else
        caseLoop whole total (ind + 1) rest { acc with code := some whole }

/-- Source lines 107-131, `_Case.__init__`: parse the annotation and classify
its elements, starting from empty identifiers, `code = None` and
`is_default_case = False`. -/
def _Case (value : Expr) : Except Err Case :=
  match parse_annotation value with
  | Except.error e => Except.error e
  | Except.ok elts =>
      caseLoop (Expr.tup elts) elts.length 0 elts
        { identifiers := [], code := Option.none, is_default_case := false }

/-- State of the `__annotations__` singleton (source lines 138-143): the
`cases` dict mapping match key to stored code, the `default` slot
(`Option.none` models the `_PREDEFINED_CASE` sentinel, `some c` models an
assigned default body `c`), and the options `default_to_none` and
`keyword`. -/
structure AnnotationsState where
  cases : List (Val × Option Expr)
  default : Option (Option Expr)
  default_to_none : Bool
  keyword : String
deriving DecidableEq

namespace Annotations

/-- Initial class attributes of `__annotations__` (source lines 140-143). -/
def initial : AnnotationsState :=
  { cases := [], default := Option.none, default_to_none := false, keyword := "case" }

/-- Source lines 145-153, `__annotations__.__setitem__`: a no-op unless the
annotation key equals the configured keyword; otherwise parse the value into
a `_Case` (an exception leaves the registry untouched), store the case code
under every identifier, and overwrite the default slot when the case is a
default case.  The pair returned is (raised exception or unit, registry
state after the call). -/
def setItem (st : AnnotationsState) (key : String) (value : Expr) :
    Except Err Unit × AnnotationsState :=
  if ¬ key = st.keyword then
    (Except.ok (), st)
  else
    match _Case value with
    | Except.error e => (Except.error e, st)
    | Except.ok c =>
        (Except.ok (),
          { st with
            cases := c.identifiers.foldl (fun cs i => dictSet cs i c.code) st.cases,
            default := if c.is_default_case then some c.code else st.default })

/-- Source lines 155-157, `__annotations__.apply_options`. -/
def apply_options (st : AnnotationsState) (default_to_none : Bool) (keyword : String) :
    AnnotationsState :=
  { st with default_to_none := default_to_none, keyword := keyword }

/-- Source lines 159-163, `__annotations__.clear`: empty the cases, restore
the `_PREDEFINED_CASE` sentinel, `keyword = "case"`,
`default_to_none = False`. -/
def clear (_st : AnnotationsState) : AnnotationsState :=
  { cases := [], default := Option.none, keyword := "case", default_to_none := false }

end Annotations

/-- Source lines 167-168, the inner `compile_and_eval(c, s)` of `resolve`:
compile the stored code and evaluate it against the scope.  A stored `None`
(possible only for an empty annotation tuple, which registers nothing) would
make `compile` raise `TypeError`. -/
def compile_and_eval (c : Option Expr) (s : Scope) : Except Err Val :=
  match c with
  | some e => evalExpr s e
  | Option.none => Except.error Err.typeError

/-- Python subscript `x[-1]` as used in `resolve`: the last element of a
nonempty tuple (or string), `IndexError` on an empty one, `TypeError` on a
non-subscriptable value. -/
def subscriptNegOne : Val → Except Err Val
  | Val.tuple [] => Except.error Err.indexError
  | Val.tuple (v :: vs) => Except.ok ((v :: vs).getLastD v)
  | Val.str s =>
      if s.isEmpty then Except.error Err.indexError
      else Except.ok (Val.str (String.singleton (s.toList.getLastD ' ')))
  | _ => Except.error Err.typeError

/-- Source lines 181-186 of `resolve`: `code_result = code_result[-1]`, then
if the result is a tuple return its `[-1]`, else return it unchanged. -/
def extractOutput (code_result : Val) : Except Err Val :=
  match subscriptNegOne code_result with
  | Except.error e => Except.error e
  | Except.ok cr =>
      match cr with
      | Val.tuple elems => subscriptNegOne (Val.tuple elems)
      | v => Except.ok v

/-- Source lines 165-186, `__annotations__.resolve`: look up the value in the
cases dict and evaluate the stored code; the `except KeyError:` clause
catches a `KeyError` raised either by the dict lookup or by the body
evaluation, and then consults the default slot (sentinel plus
`default_to_none` gives `(None,)`, sentinel without it raises
`SwitchCaseNotValidError(value)`, otherwise the default code is evaluated);
finally the result is post-processed by `extractOutput`. -/
def Annotations.resolve (st : AnnotationsState) (value : Val) (scope : Scope) :
    Except Err Val :=
  let firstTry : Except Err Val :=
    match dictGet st.cases value with
    | some c => compile_and_eval c scope
    | Option.none => Except.error (Err.keyError value)
  let afterCatch : Except Err Val :=
    match firstTry with
    | Except.error (Err.keyError _) =>
        match st.default with
        | Option.none =>
            if st.default_to_none then Except.ok (Val.tuple [Val.none])
            else Except.error (Err.switchCaseNotValid value)
        | some d => compile_and_eval d scope
    | r => r
  match afterCatch with
  | Except.error e => Except.error e
  | Except.ok code_result => extractOutput code_result

/-- State of a `Switch` instance before exit (source lines 40-50). -/
structure Switch where
  with_value : Val
  output : Val
  scope : Scope
  keyword : String
  defaults_to_none : Bool
deriving DecidableEq

namespace Switch

/-- Source lines 40-50, `Switch.__init__`: store the subject value, set
`output = None`, take the caller's scope dict (or a fresh empty one) and
mutate it in place with `self.scope["default"] = default`, and record the
options.  The stored `scope` aliases the caller's dict. -/
def init (with_value : Val) (scope : Option Scope) (keyword : String)
    (defaults_to_none : Bool) : Switch :=
  let scope0 : Scope := match scope with | Option.none => [] | some s => s
  { with_value := with_value
    output := Val.none
    scope := dictSet scope0 "default" default
    keyword := keyword
    defaults_to_none := defaults_to_none }

/-- Source lines 52-54, `Switch.__enter__`: clear the shared registry, then
push this instance's options into it. -/
def enter (sw : Switch) (st : AnnotationsState) : AnnotationsState :=
  Annotations.apply_options (Annotations.clear st) sw.defaults_to_none sw.keyword

/-- Source lines 56-62, `Switch.__exit__`: resolve the subject value against
the registry; on success clear the registry and convert the instance into an
`OutputWrapper` holding only the output; if `resolve` raises, the exception
propagates and the statements after it (including `clear`) never run, so the
registry keeps its state. -/
def exit (sw : Switch) (st : AnnotationsState) :
    Except Err OutputWrapper × AnnotationsState :=
  match Annotations.resolve st sw.with_value sw.scope with
  | Except.error e => (Except.error e, st)
  | Except.ok out => (Except.ok { output := out }, Annotations.clear st)

end Switch

/-! Support lemmas about the dict model. -/

theorem dictGet_dictSet_self {α β : Type} [DecidableEq α] (d : List (α × β)) (k : α) (v : β) :
    dictGet (dictSet d k v) k = some v := by
  induction d with
  | nil => simp [dictSet, dictGet]
  | cons p rest ih =>
      obtain ⟨a, b⟩ := p
      by_cases hk : k = a
      · subst hk; simp [dictSet, dictGet]
      · simp [dictSet, dictGet, hk, ih]

theorem dictGet_dictSet_ne {α β : Type} [DecidableEq α] (d : List (α × β)) (k1 k2 : α) (v : β)
    (h : ¬ k2 = k1) : dictGet (dictSet d k1 v) k2 = dictGet d k2 := by
  induction d with
  | nil => simp [dictSet, dictGet, h]
  | cons p rest ih =>
      obtain ⟨a, b⟩ := p
      by_cases hk : k1 = a
      · subst hk; simp [dictSet, dictGet, h]
      · by_cases hk2 : k2 = a
        · simp [dictSet, dictGet, hk, hk2]
        · simp [dictSet, dictGet, hk, hk2, ih]

theorem dictGet_foldl_dictSet_not_mem {β : Type} (ids : List Val) (cs : List (Val × β)) (v : β)
    (i : Val) (h : i ∉ ids) :
    dictGet (ids.foldl (fun a j => dictSet a j v) cs) i = dictGet cs i := by
  induction ids generalizing cs with
  | nil => rfl
  | cons j rest ih =>
      have hj : ¬ i = j := fun he => h (he ▸ List.mem_cons_self j rest)
      have hr : i ∉ rest := fun hm => h (List.mem_cons_of_mem j hm)
      simp only [List.foldl_cons]
      rw [ih (dictSet cs j v) hr, dictGet_dictSet_ne cs j i v hj]

theorem dictGet_foldl_dictSet_mem {β : Type} (ids : List Val) (cs : List (Val × β)) (v : β)
    (i : Val) (h : i ∈ ids) :
    dictGet (ids.foldl (fun a j => dictSet a j v) cs) i = some v := by
  induction ids generalizing cs with
  | nil => cases h
  | cons j rest ih =>
      by_cases hr : i ∈ rest
      · simp only [List.foldl_cons]
        exact ih (dictSet cs j v) hr
      · have hij : i = j := by
          rcases List.mem_cons.mp h with h1 | h2
          · exact h1
          · exact absurd h2 hr
        simp only [List.foldl_cons]
        rw [dictGet_foldl_dictSet_not_mem rest (dictSet cs j v) v i hr, hij,
          dictGet_dictSet_self]

/-- Subscript `[-1]` on a tuple written as `vs ++ [w]` yields `w`. -/
theorem subscriptNegOne_concat (vs : List Val) (w : Val) :
    subscriptNegOne (Val.tuple (vs ++ [w])) = Except.ok w := by
  cases vs with
  | nil => simp [subscriptNegOne]
  | cons a rest =>
      show Except.ok ((a :: (rest ++ [w])).getLastD a) = Except.ok w
      rw [List.getLastD_cons, List.getLastD_concat]

/-- Characterisation of the annotation tuple elements that make
`_Case.__init__` raise `CaseIdentifierNotConstantError` when they occur in a
non-last position: anything that is neither an `ast.Constant` nor the bare
name `default` (source lines 117-121). -/
def isOffending : Expr → Bool
  | Expr.const _ => false
  | Expr.name id => if id = "default" then false else true
  | _ => true

/-- Walking the element list, the first offending element in a non-last
position makes `caseLoop` raise `CaseIdentifierNotConstantError` carrying its
1-based position. -/
theorem caseLoop_offender (pre : List Expr) (off : Expr) (post : List Expr) :
    ∀ (ind : Nat) (acc : Case) (whole : Expr) (total : Nat),
    (∀ e ∈ pre, isOffending e = false) → isOffending off = true →
    ind + pre.length + 1 < total →
    caseLoop whole total ind (pre ++ off :: post) acc =
      Except.error (Err.caseIdentifierNotConstant (ind + pre.length + 1)) := by
  induction pre with
  | nil =>
      intro ind acc whole total _ hoff hlt
      have hne : ind ≠ total - 1 := by omega
      cases off with
      | const v => simp [isOffending] at hoff
      | name id =>
          have hid : ¬ id = "default" := by
            intro he; rw [isOffending, if_pos he] at hoff; cases hoff
          simp [caseLoop, hne, hid]
      | tup elts => simp [caseLoop, hne]
      | raiseE e => simp [caseLoop, hne]
  | cons e pre ih =>
      intro ind acc whole total hpre hoff hlt
      have hne : ind ≠ total - 1 := by simp at hlt; omega
      have hlt2 : (ind + 1) + pre.length + 1 < total := by simp at hlt ⊢; omega
      have hpre2 : ∀ x ∈ pre, isOffending x = false := fun x hx =>
        hpre x (List.mem_cons_of_mem e hx)
      have harith : (ind + 1) + pre.length + 1 = ind + (e :: pre).length + 1 := by
        simp; omega
      have he : isOffending e = false := hpre e (List.mem_cons_self e pre)
      rw [← harith]
      cases e with
      | const v =>
          simp only [List.cons_append, caseLoop, List.append_eq]
          rw [if_pos hne]
          split
          · exact ih (ind + 1) _ whole total hpre2 hoff hlt2
          · exact ih (ind + 1) _ whole total hpre2 hoff hlt2
      | name id =>
          have hid : id = "default" := by
            by_contra hcon
            rw [isOffending, if_neg hcon] at he; cases he
          simp only [List.cons_append, caseLoop, List.append_eq]
          rw [if_pos hne, if_pos hid]
          exact ih (ind + 1) _ whole total hpre2 hoff hlt2
      | tup elts => simp [isOffending] at he
      | raiseE err => simp [isOffending] at he

/-- Lemma: `__setitem__` never changes the configured keyword. -/
theorem setItem_keyword (st : AnnotationsState) (k : String) (d : Expr) :
    ((Annotations.setItem st k d).2).keyword = st.keyword := by
  unfold Annotations.setItem
  split
  · rfl
  · split
    · rfl
    · rfl

/-- Claim C8: a declaration whose parsed tuple has, in a non-last position,
an element that is neither a constant literal nor the bare name `default`
makes registration fail with `CaseIdentifierNotConstantError` carrying the
1-based position of the (first) offending element, and enters no match key
and no default from that declaration into the registry (the registry state
is unchanged). -/
theorem setItem_nonconstant_identifier_error (st : AnnotationsState) (k : String)
    (pre : List Expr) (off : Expr) (post : List Expr)
    (hk : k = st.keyword)
    (hpre : ∀ e ∈ pre, isOffending e = false)
    (hoff : isOffending off = true)
    (hpost : ¬ post = []) :
    Annotations.setItem st k (Expr.tup (pre ++ off :: post)) =
      (Except.error (Err.caseIdentifierNotConstant (pre.length + 1)), st) := by
  have hlen : (pre ++ off :: post).length = pre.length + post.length + 1 := by
    simp; omega
  have hp : 0 < post.length := by
    cases post with
    | nil => exact absurd rfl hpost
    | cons a l => simp
  have htot : 0 + pre.length + 1 < (pre ++ off :: post).length := by
    omega
  have hcl := caseLoop_offender pre off post 0
    { identifiers := [], code := Option.none, is_default_case := false }
    (Expr.tup (pre ++ off :: post)) (pre ++ off :: post).length hpre hoff htot
  have hcase : _Case (Expr.tup (pre ++ off :: post)) =
      Except.error (Err.caseIdentifierNotConstant (pre.length + 1)) := by
    unfold _Case
    show caseLoop (Expr.tup (pre ++ off :: post)) (pre ++ off :: post).length 0
        (pre ++ off :: post)
        { identifiers := [], code := Option.none, is_default_case := false } =
      Except.error (Err.caseIdentifierNotConstant (pre.length + 1))
    rw [hcl, Nat.zero_add]
  unfold Annotations.setItem
  rw [if_neg (not_not_intro hk), hcase]

/-- Witness for C8: registering `case: (1, x, "body")`, whose second element
is the non-constant name `x`, fails with `CaseIdentifierNotConstantError` at
position 2 and leaves the registry in its initial state. -/
theorem setItem_nonconstant_identifier_error_witness :
    Annotations.setItem Annotations.initial "case"
        (Expr.tup [Expr.const (Val.int 1), Expr.name "x", Expr.const (Val.str "body")]) =
      (Except.error (Err.caseIdentifierNotConstant 2), Annotations.initial) :=
  setItem_nonconstant_identifier_error Annotations.initial "case"
    [Expr.const (Val.int 1)] (Expr.name "x") [Expr.const (Val.str "body")]
    rfl (by decide) (by decide) (by decide)

/-- Claim C7: when two declarations registered in the same invocation share a
match key, the later declaration wins: after both registrations the cases
dict maps the shared key to the later declaration's stored code, and if the
later declaration is a default case its code overwrites the default slot. -/
theorem setItem_last_write_wins
    (st st1 st2 : AnnotationsState) (k : String) (d1 d2 : Expr) (c1 c2 : Case) (q : Val)
    (hk : k = st.keyword)
    (_hc1 : _Case d1 = Except.ok c1) (_hq1 : q ∈ c1.identifiers)
    (h1 : Annotations.setItem st k d1 = (Except.ok (), st1))
    (hc2 : _Case d2 = Except.ok c2) (hq2 : q ∈ c2.identifiers)
    (h2 : Annotations.setItem st1 k d2 = (Except.ok (), st2)) :
    dictGet st2.cases q = some c2.code ∧
    (c2.is_default_case = true → st2.default = some c2.code) := by
  have hst1 : (Annotations.setItem st k d1).2 = st1 := congrArg Prod.snd h1
  have hk1 : k = st1.keyword := by
    rw [← hst1, setItem_keyword st k d1]; exact hk
  unfold Annotations.setItem at h2
  rw [if_neg (not_not_intro hk1), hc2] at h2
  have hst2 : st2 =
      { st1 with
        cases := c2.identifiers.foldl (fun cs i => dictSet cs i c2.code) st1.cases,
        default := if c2.is_default_case then some c2.code else st1.default } :=
    (congrArg Prod.snd h2).symm
  subst hst2
  constructor
  · exact dictGet_foldl_dictSet_mem c2.identifiers st1.cases c2.code q hq2
  · intro hd
    simp [hd]

/-- Witness for C7: registering `case: (1, "one")` and then
`case: (1, default, "uno")` maps the duplicated key `1` to the later
declaration's code and overwrites the default slot with it. -/
theorem setItem_last_write_wins_witness :
    dictGet ((Annotations.setItem
        (Annotations.setItem Annotations.initial "case"
          (Expr.tup [Expr.const (Val.int 1), Expr.const (Val.str "one")])).2 "case"
        (Expr.tup [Expr.const (Val.int 1), Expr.name "default",
          Expr.const (Val.str "uno")])).2).cases (Val.int 1) =
      some (some (Expr.tup [Expr.const (Val.int 1), Expr.name "default",
        Expr.const (Val.str "uno")])) ∧
    ((Annotations.setItem
        (Annotations.setItem Annotations.initial "case"
          (Expr.tup [Expr.const (Val.int 1), Expr.const (Val.str "one")])).2 "case"
        (Expr.tup [Expr.const (Val.int 1), Expr.name "default",
          Expr.const (Val.str "uno")])).2).default =
      some (some (Expr.tup [Expr.const (Val.int 1), Expr.name "default",
        Expr.const (Val.str "uno")])) := by
  have h := setItem_last_write_wins Annotations.initial
    (Annotations.setItem Annotations.initial "case"
      (Expr.tup [Expr.const (Val.int 1), Expr.const (Val.str "one")])).2
    (Annotations.setItem
      (Annotations.setItem Annotations.initial "case"
        (Expr.tup [Expr.const (Val.int 1), Expr.const (Val.str "one")])).2 "case"
      (Expr.tup [Expr.const (Val.int 1), Expr.name "default",
        Expr.const (Val.str "uno")])).2
    "case"
    (Expr.tup [Expr.const (Val.int 1), Expr.const (Val.str "one")])
    (Expr.tup [Expr.const (Val.int 1), Expr.name "default", Expr.const (Val.str "uno")])
    { identifiers := [Val.int 1],
      code := some (Expr.tup [Expr.const (Val.int 1), Expr.const (Val.str "one")]),
      is_default_case := false }
    { identifiers := [Val.int 1],
      code := some (Expr.tup [Expr.const (Val.int 1), Expr.name "default",
        Expr.const (Val.str "uno")]),
      is_default_case := true }
    (Val.int 1)
    rfl (by decide) (by decide) (by decide) (by decide) (by decide) (by decide)
  exact ⟨h.1, h.2 rfl⟩

/-- Claim C4: with no matching key, no registered default and strict mode
(`defaults_to_none` off), `resolve` raises `SwitchCaseNotValidError` whose
payload is the unmatched subject value. -/
theorem resolve_strict_miss_raises (st : AnnotationsState) (value : Val) (scope : Scope)
    (hmiss : dictGet st.cases value = Option.none)
    (hdef : st.default = Option.none)
    (hstrict : st.default_to_none = false) :
    Annotations.resolve st value scope = Except.error (Err.switchCaseNotValid value) := by
  simp [Annotations.resolve, hmiss, hdef, hstrict]

/-- Witness for C4: in a registry holding only the case `(1, "one")`,
resolving the unmatched value `2` in strict mode raises
`SwitchCaseNotValidError(2)`. -/
theorem resolve_strict_miss_raises_witness :
    Annotations.resolve
        (Annotations.setItem Annotations.initial "case"
          (Expr.tup [Expr.const (Val.int 1), Expr.const (Val.str "one")])).2
        (Val.int 2) [] =
      Except.error (Err.switchCaseNotValid (Val.int 2)) :=
  resolve_strict_miss_raises _ (Val.int 2) [] (by decide) (by decide) (by decide)

/-- Claim C5: with no matching key, no registered default and lenient mode
(`defaults_to_none` on), `resolve` returns `None` and raises no error. -/
theorem resolve_lenient_miss_returns_none (st : AnnotationsState) (value : Val) (scope : Scope)
    (hmiss : dictGet st.cases value = Option.none)
    (hdef : st.default = Option.none)
    (hlenient : st.default_to_none = true) :
    Annotations.resolve st value scope = Except.ok Val.none := by
  simp [Annotations.resolve, hmiss, hdef, hlenient, extractOutput, subscriptNegOne]

/-- Witness for C5: in a registry holding only the case `(1, "one")` with
`defaults_to_none` enabled, resolving the unmatched value `2` yields `None`. -/
theorem resolve_lenient_miss_returns_none_witness :
    Annotations.resolve
        { (Annotations.setItem Annotations.initial "case"
            (Expr.tup [Expr.const (Val.int 1), Expr.const (Val.str "one")])).2
          with default_to_none := true }
        (Val.int 2) [] =
      Except.ok Val.none :=
  resolve_lenient_miss_returns_none _ (Val.int 2) [] (by decide) (by decide) (by decide)

/-- Claim C1: when the selected case's body (the stored code, which `resolve`
evaluates — either the matched case's code or the default's) evaluates to a
tuple, the result is its last element, unwrapped exactly once more when that
last element is itself a tuple (two levels, never a third): a body evaluating
to `(1, (2, 3))` produces `3`, and a last element that is a plain non-tuple
value is returned unmodified. -/
theorem resolve_body_tuple_extraction (st : AnnotationsState) (v : Val) (scope : Scope)
    (c : Option Expr) (vs : List Val) (w : Val)
    (hsel : dictGet st.cases v = some c ∨
      (dictGet st.cases v = Option.none ∧ st.default = some c))
    (heval : compile_and_eval c scope = Except.ok (Val.tuple (vs ++ [w]))) :
    ((∀ l : List Val, ¬ w = Val.tuple l) →
      Annotations.resolve st v scope = Except.ok w) ∧
    (∀ (ws : List Val) (u : Val), w = Val.tuple (ws ++ [u]) →
      Annotations.resolve st v scope = Except.ok u) := by
  have hres : Annotations.resolve st v scope = extractOutput (Val.tuple (vs ++ [w])) := by
    rcases hsel with hhit | ⟨hmiss, hdef⟩
    · simp [Annotations.resolve, hhit, heval]
    · simp [Annotations.resolve, hmiss, hdef, heval]
  rw [hres]
  unfold extractOutput
  rw [subscriptNegOne_concat]
  constructor
  · intro hnt
    cases w with
    | tuple l => exact absurd rfl (hnt l)
    | int n => rfl
    | str s => rfl
    | none => rfl
  · intro ws u hu
    subst hu
    exact subscriptNegOne_concat ws u

/-- Witness for C1: the registered case `(1, (2, 3))` stores code evaluating
to the tuple `(1, (2, 3))`; resolving `1` takes the last element `(2, 3)`,
which is a tuple, and unwraps it once more to produce `3`. -/
theorem resolve_body_tuple_extraction_witness :
    Annotations.resolve
        (Annotations.setItem Annotations.initial "case"
          (Expr.tup [Expr.const (Val.int 1),
            Expr.tup [Expr.const (Val.int 2), Expr.const (Val.int 3)]])).2
        (Val.int 1) [] =
      Except.ok (Val.int 3) :=
  (resolve_body_tuple_extraction
    (Annotations.setItem Annotations.initial "case"
      (Expr.tup [Expr.const (Val.int 1),
        Expr.tup [Expr.const (Val.int 2), Expr.const (Val.int 3)]])).2
    (Val.int 1) []
    (some (Expr.tup [Expr.const (Val.int 1),
      Expr.tup [Expr.const (Val.int 2), Expr.const (Val.int 3)]]))
    [Val.int 1] (Val.tuple [Val.int 2, Val.int 3])
    (Or.inl (by decide)) (by decide)).2 [Val.int 2] (Val.int 3) rfl

/-- Claim C6: when a default case is registered, resolving a subject value
with no matching explicit key produces the default body's result, while
resolving a value whose key is registered and whose case code evaluates
successfully produces that case's result, never the default's. -/
theorem resolve_default_vs_specific (st : AnnotationsState) (v : Val) (scope : Scope)
    (d : Option Expr) (hdef : st.default = some d) :
    (dictGet st.cases v = Option.none →
      Annotations.resolve st v scope =
        Except.bind (compile_and_eval d scope) extractOutput) ∧
    (∀ (c : Option Expr) (r : Val), dictGet st.cases v = some c →
      compile_and_eval c scope = Except.ok r →
      Annotations.resolve st v scope = extractOutput r) := by
  constructor
  · intro hmiss
    cases hev : compile_and_eval d scope with
    | ok r => simp [Annotations.resolve, hmiss, hdef, hev, Except.bind]
    | error e => simp [Annotations.resolve, hmiss, hdef, hev, Except.bind]
  · intro c r hhit hev
    simp [Annotations.resolve, hhit, hev]

/-- Witness for C6: with cases `(1, "one")` and `(default, "fallback")`
registered, resolving the unmatched value `99` gives `"fallback"` and
resolving the matched value `1` gives `"one"`. -/
theorem resolve_default_vs_specific_witness :
    Annotations.resolve
        (Annotations.setItem
          (Annotations.setItem Annotations.initial "case"
            (Expr.tup [Expr.const (Val.int 1), Expr.const (Val.str "one")])).2 "case"
          (Expr.tup [Expr.name "default", Expr.const (Val.str "fallback")])).2
        (Val.int 99) [("default", default)] =
      Except.ok (Val.str "fallback") ∧
    Annotations.resolve
        (Annotations.setItem
          (Annotations.setItem Annotations.initial "case"
            (Expr.tup [Expr.const (Val.int 1), Expr.const (Val.str "one")])).2 "case"
          (Expr.tup [Expr.name "default", Expr.const (Val.str "fallback")])).2
        (Val.int 1) [("default", default)] =
      Except.ok (Val.str "one") :=
  ⟨((resolve_default_vs_specific
      (Annotations.setItem
        (Annotations.setItem Annotations.initial "case"
          (Expr.tup [Expr.const (Val.int 1), Expr.const (Val.str "one")])).2 "case"
        (Expr.tup [Expr.name "default", Expr.const (Val.str "fallback")])).2
      (Val.int 99) [("default", default)]
      (some (Expr.tup [Expr.name "default", Expr.const (Val.str "fallback")]))
      (by decide)).1 (by decide)).trans (by decide),
   ((resolve_default_vs_specific
      (Annotations.setItem
        (Annotations.setItem Annotations.initial "case"
          (Expr.tup [Expr.const (Val.int 1), Expr.const (Val.str "one")])).2 "case"
        (Expr.tup [Expr.name "default", Expr.const (Val.str "fallback")])).2
      (Val.int 1) [("default", default)]
      (some (Expr.tup [Expr.name "default", Expr.const (Val.str "fallback")]))
      (by decide)).2
      (some (Expr.tup [Expr.const (Val.int 1), Expr.const (Val.str "one")]))
      (Val.tuple [Val.int 1, Val.str "one"]) (by decide) (by decide)).trans (by decide)⟩

/-- Counterexample to claim C2 as stated: in strict mode with the single case
`(1, "one")` registered, exiting a switch on the unmatched value `2` lets
`SwitchCaseNotValidError(2)` propagate, but the registry does NOT end up
cleared — its cases dict is still nonempty after the exit step. -/
theorem exit_failure_leaves_registry_uncleared_cex :
    (Switch.exit (Switch.init (Val.int 2) Option.none "case" false)
        (Annotations.setItem Annotations.initial "case"
          (Expr.tup [Expr.const (Val.int 1), Expr.const (Val.str "one")])).2).1 =
      Except.error (Err.switchCaseNotValid (Val.int 2)) ∧
    ¬ ((Switch.exit (Switch.init (Val.int 2) Option.none "case" false)
        (Annotations.setItem Annotations.initial "case"
          (Expr.tup [Expr.const (Val.int 1), Expr.const (Val.str "one")])).2).2).cases =
      [] := by
  decide

/-- Claim C2 (amended): if `resolve` raises during the exit step, the
exception propagates out of `__exit__`, but the registry is NOT cleared by
the exit step — it keeps exactly the state it had; it is the next switch
invocation's entry step that clears it. -/
theorem exit_failure_propagates_without_clearing (sw : Switch) (st : AnnotationsState)
    (e : Err) (h : Annotations.resolve st sw.with_value sw.scope = Except.error e) :
    Switch.exit sw st = (Except.error e, st) ∧
    ∀ sw2 : Switch, (Switch.enter sw2 (Switch.exit sw st).2).cases = [] ∧
      (Switch.enter sw2 (Switch.exit sw st).2).default = Option.none := by
  have hx : Switch.exit sw st = (Except.error e, st) := by
    unfold Switch.exit
    rw [h]
  exact ⟨hx, fun sw2 => ⟨rfl, rfl⟩⟩

/-- Witness for the amended C2: the concrete failing exit of the
counterexample propagates `SwitchCaseNotValidError(2)` and returns the
registry unchanged. -/
theorem exit_failure_propagates_without_clearing_witness :
    Switch.exit (Switch.init (Val.int 2) Option.none "case" false)
        (Annotations.setItem Annotations.initial "case"
          (Expr.tup [Expr.const (Val.int 1), Expr.const (Val.str "one")])).2 =
      (Except.error (Err.switchCaseNotValid (Val.int 2)),
        (Annotations.setItem Annotations.initial "case"
          (Expr.tup [Expr.const (Val.int 1), Expr.const (Val.str "one")])).2) :=
  (exit_failure_propagates_without_clearing
    (Switch.init (Val.int 2) Option.none "case" false)
    (Annotations.setItem Annotations.initial "case"
      (Expr.tup [Expr.const (Val.int 1), Expr.const (Val.str "one")])).2
    (Err.switchCaseNotValid (Val.int 2)) (by decide)).1

/-- Counterexample to claim C3 as stated: the subject value `1` matches the
registered case `(1, <body raising KeyError("boom")>)`; evaluating the
selected body raises `KeyError("boom")`, yet `resolve` does not propagate it:
the `except KeyError:` clause catches it and redirects to miss handling,
raising `SwitchCaseNotValidError(1)` instead. -/
theorem body_keyerror_redirected_cex :
    compile_and_eval
        (some (Expr.tup [Expr.const (Val.int 1),
          Expr.raiseE (Err.keyError (Val.str "boom"))])) [] =
      Except.error (Err.keyError (Val.str "boom")) ∧
    dictGet ((Annotations.setItem Annotations.initial "case"
        (Expr.tup [Expr.const (Val.int 1),
          Expr.raiseE (Err.keyError (Val.str "boom"))])).2).cases (Val.int 1) =
      some (some (Expr.tup [Expr.const (Val.int 1),
        Expr.raiseE (Err.keyError (Val.str "boom"))])) ∧
    Annotations.resolve
        ((Annotations.setItem Annotations.initial "case"
          (Expr.tup [Expr.const (Val.int 1),
            Expr.raiseE (Err.keyError (Val.str "boom"))])).2) (Val.int 1) [] =
      Except.error (Err.switchCaseNotValid (Val.int 1)) := by
  decide

/-- Claim C3 (amended): an error raised while evaluating an explicitly
matched case's body propagates unchanged out of `resolve` unless it is a
`KeyError`, which the miss-handling `except KeyError:` clause catches and
redirects to default/miss handling; an error raised while evaluating the
selected default body always propagates unchanged. -/
theorem body_error_propagation_except_keyerror (st : AnnotationsState) (v : Val)
    (scope : Scope) :
    (∀ (c : Option Expr) (e : Err), dictGet st.cases v = some c →
      compile_and_eval c scope = Except.error e → (∀ x : Val, ¬ e = Err.keyError x) →
      Annotations.resolve st v scope = Except.error e) ∧
    (∀ (d : Option Expr) (e : Err), dictGet st.cases v = Option.none →
      st.default = some d → compile_and_eval d scope = Except.error e →
      Annotations.resolve st v scope = Except.error e) := by
  constructor
  · intro c e hhit hev hne
    cases e with
    | keyError x => exact absurd rfl (hne x)
    | switchCaseNotValid x => simp [Annotations.resolve, hhit, hev]
    | caseIdentifierNotConstant n => simp [Annotations.resolve, hhit, hev]
    | annotationNotTuple => simp [Annotations.resolve, hhit, hev]
    | nameError s => simp [Annotations.resolve, hhit, hev]
    | indexError => simp [Annotations.resolve, hhit, hev]
    | typeError => simp [Annotations.resolve, hhit, hev]
  · intro d e hmiss hdef hev
    cases e <;> simp [Annotations.resolve, hmiss, hdef, hev]

/-- Witness for the amended C3: a matched body raising `NameError` propagates
it unchanged, and a default body raising `KeyError("boom")` also propagates
it unchanged (the catch clause only guards the lookup-plus-case-evaluation,
not the default evaluation). -/
theorem body_error_propagation_except_keyerror_witness :
    Annotations.resolve
        ((Annotations.setItem Annotations.initial "case"
          (Expr.tup [Expr.const (Val.int 1), Expr.name "missing"])).2) (Val.int 1) [] =
      Except.error (Err.nameError "missing") ∧
    Annotations.resolve
        ((Annotations.setItem Annotations.initial "case"
          (Expr.tup [Expr.name "default",
            Expr.raiseE (Err.keyError (Val.str "boom"))])).2) (Val.int 7)
        [("default", default)] =
      Except.error (Err.keyError (Val.str "boom")) :=
  ⟨(body_error_propagation_except_keyerror
      ((Annotations.setItem Annotations.initial "case"
        (Expr.tup [Expr.const (Val.int 1), Expr.name "missing"])).2) (Val.int 1) []).1
      (some (Expr.tup [Expr.const (Val.int 1), Expr.name "missing"]))
      (Err.nameError "missing") (by decide) (by decide)
      (fun x h => Err.noConfusion h),
   (body_error_propagation_except_keyerror
      ((Annotations.setItem Annotations.initial "case"
        (Expr.tup [Expr.name "default",
          Expr.raiseE (Err.keyError (Val.str "boom"))])).2) (Val.int 7)
      [("default", default)]).2
      (some (Expr.tup [Expr.name "default",
        Expr.raiseE (Err.keyError (Val.str "boom"))]))
      (Err.keyError (Val.str "boom")) (by decide) (by decide) (by decide)⟩

/-- Claim C9: when the exit step completes successfully, the switch is
converted into the immutable `OutputWrapper`, whose only field is the
resolved output; the registry is cleared; and any wrapper produced by a
successful exit exposes exactly the resolved value.  In the embedding the
loss of entry/exit capability is reflected by the result type: `__exit__`
produces an `OutputWrapper`, a type with no enter/exit operations. -/
theorem exit_success_freezes_to_output_wrapper (sw : Switch) (st : AnnotationsState)
    (out : Val) (h : Annotations.resolve st sw.with_value sw.scope = Except.ok out) :
    Switch.exit sw st = (Except.ok { output := out }, Annotations.clear st) ∧
    ∀ w : OutputWrapper, (Switch.exit sw st).1 = Except.ok w → w.output = out := by
  have hx : Switch.exit sw st = (Except.ok { output := out }, Annotations.clear st) := by
    unfold Switch.exit
    rw [h]
  refine ⟨hx, ?_⟩
  intro w hw
  rw [hx] at hw
  have hww : ({ output := out } : OutputWrapper) = w := Except.ok.inj hw
  rw [← hww]

/-- Witness for C9: a successful exit on the registered case `(1, "one")`
with subject `1` yields the wrapper holding `"one"` and the cleared
registry. -/
theorem exit_success_freezes_to_output_wrapper_witness :
    Switch.exit (Switch.init (Val.int 1) Option.none "case" false)
        (Annotations.setItem Annotations.initial "case"
          (Expr.tup [Expr.const (Val.int 1), Expr.const (Val.str "one")])).2 =
      (Except.ok { output := Val.str "one" },
        Annotations.clear
          (Annotations.setItem Annotations.initial "case"
            (Expr.tup [Expr.const (Val.int 1), Expr.const (Val.str "one")])).2) :=
  (exit_success_freezes_to_output_wrapper
    (Switch.init (Val.int 1) Option.none "case" false)
    (Annotations.setItem Annotations.initial "case"
      (Expr.tup [Expr.const (Val.int 1), Expr.const (Val.str "one")])).2
    (Val.str "one") (by decide)).1

/-- Claim C10: constructing a `Switch` with a caller-supplied scope mapping
binds the key `"default"` to the module-level marker string `"default"` in
that mapping, overwriting any binding the caller had for that name, while
every other entry of the supplied scope is unchanged. -/
theorem switch_init_scope_frame_effect (s : Scope) (v : Val) (k : String) (b : Bool) :
    dictGet (Switch.init v (some s) k b).scope "default" = some default ∧
    ∀ key : String, ¬ key = "default" →
      dictGet (Switch.init v (some s) k b).scope key = dictGet s key := by
  constructor
  · exact dictGet_dictSet_self s "default" default
  · intro key hk
    exact dictGet_dictSet_ne s "default" key default hk

/-- Witness for C10: with caller scope containing bindings for `"default"`
and `"x"`, after `Switch.__init__` the binding for `"default"` is overwritten
with the marker string and the binding for `"x"` is untouched. -/
theorem switch_init_scope_frame_effect_witness :
    dictGet (Switch.init (Val.int 0)
        (some [("default", Val.int 7), ("x", Val.int 5)]) "case" false).scope "default" =
      some default ∧
    dictGet (Switch.init (Val.int 0)
        (some [("default", Val.int 7), ("x", Val.int 5)]) "case" false).scope "x" =
      some (Val.int 5) :=
  ⟨(switch_init_scope_frame_effect [("default", Val.int 7), ("x", Val.int 5)]
      (Val.int 0) "case" false).1,
   (switch_init_scope_frame_effect [("default", Val.int 7), ("x", Val.int 5)]
      (Val.int 0) "case" false).2 "x" (by decide)⟩

end AnnotationSwitch
